import Mathlib

/-!
Verification of the locking primitives of `ostep-rs`
(`src/threads/atomic_exchange.rs` and `src/threads/ticket_lock.rs`),
as a shallow embedding in Lean 4.

The concurrent Rust code is modelled sequentially: each operation is a
function of the lock state, and the nondeterminism of the environment
(spurious weak-CAS failures, the sequence of values a spin loop reads)
is supplied by explicit oracle lists. `none` means the operation was
still spinning when its oracle ran out, i.e. it did not terminate within
the observed horizon.
-/

/-! ## Flag constants (atomic_exchange.rs, lines 11-13) -/

def MUTEX_AVAILABLE : Nat := 0

def MUTEX_LOCKED : Nat := 1

def MUTEX_POISONED : Nat := 2

/-- The observable result of a lock operation.
`ok` is `Ok(MutexGuard { .. })`; `errUnavailable` is `Err("Lock is not available")`;
`errPoisoned` is `Err("The lock is poinsoned")`; `panicked` records that the
`unreachable!()` arm of a `match` was executed, aborting the operation. -/
inductive LockOutcome
  | ok
  | errUnavailable
  | errPoisoned
  | panicked
deriving DecidableEq, Repr

/-- Models `self.flag.compare_exchange_weak(MUTEX_AVAILABLE, MUTEX_LOCKED, Acquire, Relaxed)`.
Returns the new flag value together with the Rust `Result`: `Sum.inl prior` for
`Ok(prior)` (the flag is set to `MUTEX_LOCKED`), `Sum.inr current` for `Err(current)`
(the flag is unchanged). The weak form is allowed to fail spuriously even when the
current value equals the expected one; the `spurious` bit selects that behaviour. -/
def compare_exchange_weak (flag : Nat) (spurious : Bool) : Nat × (Nat ⊕ Nat) :=
  if flag = MUTEX_AVAILABLE ∧ spurious = false then
    (MUTEX_LOCKED, Sum.inl flag)
  else
    (flag, Sum.inr flag)

/-- Loop control for the `match` in `Mutex::_lock`. -/
inductive LoopControl
  | brk
  | cont
  | retPoison
  | retUnreachable
deriving DecidableEq, Repr

/-- The `match` in the loop body of `Mutex::_lock` (atomic_exchange.rs, lines 80-94),
with the arms in source order:
`Err(MUTEX_LOCKED) => continue`, `Ok(MUTEX_AVAILABLE) => break`,
`Err(MUTEX_POISONED) => return Err(..)`, `_ => unreachable!()`. -/
def lockMatch : Nat ⊕ Nat → LoopControl
  | Sum.inr 1 => LoopControl.cont
  | Sum.inl 0 => LoopControl.brk
  | Sum.inr 2 => LoopControl.retPoison
  | _ => LoopControl.retUnreachable

/-- The `loop` in `Mutex::_lock`: one `compare_exchange_weak` per iteration, dispatched
by `lockMatch`. The oracle list holds each iteration's spurious-failure bit; `none`
means the loop was still running (`continue`) when the oracle ran out. Returns the
final flag value and the outcome. -/
def lockLoop (flag : Nat) : List Bool → Option (Nat × LockOutcome)
  | [] => none
  | s :: rest =>
    let r := compare_exchange_weak flag s
    match lockMatch r.2 with
    | LoopControl.brk => some (r.1, LockOutcome.ok)
    | LoopControl.retPoison => some (r.1, LockOutcome.errPoisoned)
    | LoopControl.retUnreachable => some (r.1, LockOutcome.panicked)
    | LoopControl.cont => lockLoop r.1 rest

namespace Mutex

/-- Models `Mutex::_lock(test_and_test)` acting on the flag. When `test_and_test` is
set, the source first runs `while *self.flag.as_ptr() == 1 {}` — a plain busy-read,
performed once before the CAS loop; with no other thread mutating the flag it spins
forever exactly when the flag is `MUTEX_LOCKED`, which the model renders as `none`.
Then the CAS loop runs. -/
def lockAux (test_and_test : Bool) (flag : Nat) (spur : List Bool) :
    Option (Nat × LockOutcome) :=
  if test_and_test ∧ flag = MUTEX_LOCKED then none
  else lockLoop flag spur

/-- Models `Mutex::lock` — "test and set": `self._lock(false)`. -/
def lock (flag : Nat) (spur : List Bool) : Option (Nat × LockOutcome) :=
  lockAux false flag spur

/-- Models `Mutex::lock_ttas` — "test and test and set": `self._lock(true)`. -/
def lock_ttas (flag : Nat) (spur : List Bool) : Option (Nat × LockOutcome) :=
  lockAux true flag spur

/-- Models `Mutex::try_lock` (atomic_exchange.rs, lines 104-111): one unconditional
`self.flag.swap(MUTEX_LOCKED, Ordering::Relaxed)`, then a `match` on the prior
value, arms in source order. The swap always stores `MUTEX_LOCKED`, so the new
flag is `MUTEX_LOCKED` on every path; a prior value other than 0, 1, 2 would hit
`unreachable!()` (after the swap already happened). -/
def try_lock (flag : Nat) : Nat × LockOutcome :=
  ( MUTEX_LOCKED
  , match flag with
    | 1 => LockOutcome.errUnavailable
    | 0 => LockOutcome.ok
    | 2 => LockOutcome.errPoisoned
    | _ => LockOutcome.panicked )

end Mutex

namespace MutexGuard

/-- The value stored into the flag by `Drop for MutexGuard` (atomic_exchange.rs,
lines 127-136): `MUTEX_POISONED` when `std::thread::panicking()`, else
`MUTEX_AVAILABLE`; stored with `Ordering::Release`. -/
def dropFlag (panicking : Bool) : Nat :=
  if panicking then MUTEX_POISONED else MUTEX_AVAILABLE

end MutexGuard

/-! ## The full mutex with its protected payload -/

/-- Models `Mutex<T>`: the `UnsafeCell<T>` payload and the `AtomicU8` flag. -/
structure MutexState (T : Type) where
  inner : T
  flag : Nat

namespace MutexState

/-- Models `Mutex::new`: wraps the value, flag starts at `0` (`MUTEX_AVAILABLE`). -/
def new {T : Type} (v : T) : MutexState T :=
  { inner := v, flag := MUTEX_AVAILABLE }

/-- Models `Mutex::lock` on the full state; the payload is never touched by locking. -/
def lockM {T : Type} (m : MutexState T) (spur : List Bool) :
    Option (MutexState T × LockOutcome) :=
  match Mutex.lock m.flag spur with
  | none => none
  | some r => some ({ m with flag := r.1 }, r.2)

end MutexState

namespace MutexGuard

/-- Models `Deref for MutexGuard`: a shared reference to the protected value. -/
def deref {T : Type} (m : MutexState T) : T :=
  m.inner

/-- Writing `w` through `DerefMut for MutexGuard`. -/
def write {T : Type} (m : MutexState T) (w : T) : MutexState T :=
  { m with inner := w }

/-- Models `Drop for MutexGuard` on the full state: only the flag is stored
(`Release`); the payload is untouched. -/
def drop {T : Type} (panicking : Bool) (m : MutexState T) : MutexState T :=
  { m with flag := dropFlag panicking }

end MutexGuard

/-! ## Memory orderings at each call site -/

/-- Memory orderings as written at the atomic call sites of the source.
`NonAtomic` records a plain (non-atomic) memory access that carries no
ordering at all. -/
inductive MemOrdering
  | Relaxed
  | Acquire
  | Release
  | AcqRel
  | SeqCst
  | NonAtomic
deriving DecidableEq, Repr

/-- Success ordering of the `compare_exchange_weak` in `Mutex::_lock`. -/
def lock_cas_success_ordering : MemOrdering := MemOrdering.Acquire

/-- Failure ordering of the `compare_exchange_weak` in `Mutex::_lock`. -/
def lock_cas_failure_ordering : MemOrdering := MemOrdering.Relaxed

/-- Ordering of `self.flag.swap(MUTEX_LOCKED, Ordering::Relaxed)` in `Mutex::try_lock`;
this single ordering covers the successful acquisition path as well. -/
def try_lock_swap_ordering : MemOrdering := MemOrdering.Relaxed

/-- Ordering of `self.mutex.flag.store(flag, Ordering::Release)` in `Drop for MutexGuard`. -/
def guard_drop_store_ordering : MemOrdering := MemOrdering.Release

/-- Ordering of `ticket.fetch_add(1, Ordering::Relaxed)` in `ticket_lock::lock`. -/
def ticket_fetch_add_ordering : MemOrdering := MemOrdering.Relaxed

/-- The busy-wait `while *turn != my_turn` in `ticket_lock::lock` reads `turn`
through a plain `&usize`, not an atomic. -/
def ticket_spin_read_ordering : MemOrdering := MemOrdering.NonAtomic

/-- In `ticket_lock::unlock` the write `*turn += 1` goes through a plain `&mut usize`,
not an atomic. -/
def ticket_unlock_write_ordering : MemOrdering := MemOrdering.NonAtomic

/-- Does an ordering provide at least acquire semantics? -/
def atLeastAcquire : MemOrdering → Bool
  | MemOrdering.Acquire => true
  | MemOrdering.AcqRel => true
  | MemOrdering.SeqCst => true
  | _ => false

/-- Does an ordering provide at least release semantics? -/
def atLeastRelease : MemOrdering → Bool
  | MemOrdering.Release => true
  | MemOrdering.AcqRel => true
  | MemOrdering.SeqCst => true
  | _ => false

/-! ## Ticket lock (ticket_lock.rs) -/

/-- Width of `usize` on the 64-bit targets the crate is built for. -/
def USIZE_MOD : Nat := 2 ^ 64

/-- Models `ticket.fetch_add(1, Ordering::Relaxed)`: returns `(new ticket value, prior value)`;
the stored value wraps at the `usize` width. -/
def fetch_add_ticket (ticket : Nat) : Nat × Nat :=
  ((ticket + 1) % USIZE_MOD, ticket)

/-- The busy-wait `while *turn != my_turn { std::hint::spin_loop(); }` in
`ticket_lock::lock`. `obs` is the sequence of values the loop reads from `turn`;
the loop exits at the first read equal to `my_turn` and the model returns that
read value, or `none` if the oracle is exhausted while still spinning. -/
def spinWait (my_turn : Nat) : List Nat → Option Nat
  | [] => none
  | t :: rest => if t ≠ my_turn then spinWait my_turn rest else some t

/-- Models `ticket_lock::lock(turn, ticket)`: `my_turn = ticket.fetch_add(1, Relaxed)`
(the pre-increment value), then the busy-wait on `turn`. Returns
`(new next_ticket, my_turn, result of the wait)`. -/
def ticket_lock_lock (ticket : Nat) (obs : List Nat) : Nat × Nat × Option Nat :=
  let fa := fetch_add_ticket ticket
  (fa.1, fa.2, spinWait fa.2 obs)

/-- Models `ticket_lock::unlock(turn)`: `*turn += 1`, a plain increment of the `usize`
`now_serving` counter (wrapping at the `usize` width); nothing else is touched. -/
def ticket_unlock (turn : Nat) : Nat :=
  (turn + 1) % USIZE_MOD

/-! ## Helper lemmas -/

/-- With the flag `MUTEX_LOCKED` and no other thread releasing it, the CAS loop
spins forever: every iteration takes the `continue` arm. -/
theorem lockLoop_locked_none : ∀ spur : List Bool, lockLoop MUTEX_LOCKED spur = none := by
  intro spur
  induction spur with
  | nil => rfl
  | cons s rest ih =>
    simp only [lockLoop, compare_exchange_weak, MUTEX_AVAILABLE, MUTEX_LOCKED]
    norm_num [lockMatch]
    exact ih

/-! ## Claim theorems -/

/-- C1 (counterexample): the claim that the state stays `Poisoned` forever is false:
a single `try_lock` call on a `Poisoned` mutex transitions the state out of
`Poisoned` (its unconditional swap leaves the flag `Locked`), even as it reports
the poison error. -/
theorem c1_poison_not_terminal_counterexample :
    (Mutex.try_lock MUTEX_POISONED).1 ≠ MUTEX_POISONED ∧
    (Mutex.try_lock MUTEX_POISONED).1 = MUTEX_LOCKED ∧
    (Mutex.try_lock MUTEX_POISONED).2 = LockOutcome.errPoisoned := by
  decide

/-- C1 (amended): on a `Poisoned` mutex, `lock` and `lock_ttas` fail immediately with
the poison error and leave the state `Poisoned`, however often they are called;
`try_lock` also fails with the poison error but its unconditional exchange overwrites
the state to `Locked`, so `try_lock` does move the state out of `Poisoned`. After
that, no call ever returns a lock handle: `try_lock` fails with the lock-unavailable
error and `lock`/`lock_ttas` spin forever. -/
theorem c1_poisoned_behaviour :
    (∀ (tat s : Bool) (rest : List Bool),
      Mutex.lockAux tat MUTEX_POISONED (s :: rest)
        = some (MUTEX_POISONED, LockOutcome.errPoisoned)) ∧
    Mutex.try_lock MUTEX_POISONED = (MUTEX_LOCKED, LockOutcome.errPoisoned) ∧
    Mutex.try_lock MUTEX_LOCKED = (MUTEX_LOCKED, LockOutcome.errUnavailable) ∧
    (∀ (tat : Bool) (spur : List Bool), Mutex.lockAux tat MUTEX_LOCKED spur = none) := by
  refine ⟨?_, rfl, rfl, ?_⟩
  · intro tat s rest
    simp only [Mutex.lockAux, lockLoop, compare_exchange_weak,
      MUTEX_AVAILABLE, MUTEX_LOCKED, MUTEX_POISONED]
    norm_num [lockMatch]
  · intro tat spur
    cases tat with
    | true => simp [Mutex.lockAux, lockLoop_locked_none]
    | false => simpa [Mutex.lockAux] using lockLoop_locked_none spur

/-- C2: `try_lock` performs exactly one exchange that stores `Locked` (the new flag is
`MUTEX_LOCKED` whatever the prior state was) and never retries; prior `Available`
yields a handle, prior `Locked` the lock-unavailable error, prior `Poisoned` the
poison error. -/
theorem c2_try_lock_single_exchange :
    Mutex.try_lock MUTEX_AVAILABLE = (MUTEX_LOCKED, LockOutcome.ok) ∧
    Mutex.try_lock MUTEX_LOCKED = (MUTEX_LOCKED, LockOutcome.errUnavailable) ∧
    Mutex.try_lock MUTEX_POISONED = (MUTEX_LOCKED, LockOutcome.errPoisoned) ∧
    ∀ flag : Nat, (Mutex.try_lock flag).1 = MUTEX_LOCKED := by
  exact ⟨rfl, rfl, rfl, fun _ => rfl⟩

/-- C3: destroying a `MutexGuard` stores `Poisoned` into the flag when the thread is
unwinding from a panic and `Available` otherwise; these are the only two outcomes,
and the payload is untouched. -/
theorem c3_guard_drop_outcomes (T : Type) (p : Bool) (m : MutexState T) :
    (MutexGuard.drop p m).flag = (if p then MUTEX_POISONED else MUTEX_AVAILABLE) ∧
    ((MutexGuard.drop p m).flag = MUTEX_AVAILABLE ∨
      (MutexGuard.drop p m).flag = MUTEX_POISONED) ∧
    (MutexGuard.drop p m).inner = m.inner := by
  cases p <;> simp [MutexGuard.drop, MutexGuard.dropFlag]

/-- C4: `lock` is the test-and-set loop: from `Available`, a non-spurious
compare-and-exchange succeeds, the flag becomes `Locked` and a handle is returned;
an exchange that fails because the state is `Locked` retries the loop; observing
`Poisoned` returns the poison error on that very first iteration, without retrying;
and `lock` is exactly this loop (the TTAS pre-test is off). -/
theorem c4_lock_test_and_set :
    (∀ rest : List Bool,
      lockLoop MUTEX_AVAILABLE (false :: rest) = some (MUTEX_LOCKED, LockOutcome.ok)) ∧
    (∀ (s : Bool) (rest : List Bool),
      lockLoop MUTEX_LOCKED (s :: rest) = lockLoop MUTEX_LOCKED rest) ∧
    (∀ (s : Bool) (rest : List Bool),
      lockLoop MUTEX_POISONED (s :: rest) = some (MUTEX_POISONED, LockOutcome.errPoisoned)) ∧
    (∀ (flag : Nat) (spur : List Bool), Mutex.lock flag spur = lockLoop flag spur) := by
  refine ⟨fun rest => rfl, ?_, ?_, ?_⟩
  · intro s rest
    simp only [lockLoop, compare_exchange_weak, MUTEX_AVAILABLE, MUTEX_LOCKED]
    norm_num [lockMatch]
  · intro s rest
    simp only [lockLoop, compare_exchange_weak,
      MUTEX_AVAILABLE, MUTEX_LOCKED, MUTEX_POISONED]
    norm_num [lockMatch]
  · intro flag spur
    simp [Mutex.lock, Mutex.lockAux]

/-- C5: `lock_ttas` has the same contract and the same end state as `lock` on every
initial flag value and every oracle: the two functions are extensionally equal.
The TTAS pre-check (the plain busy-read skipped while the flag is `Locked`) changes
only how the non-result (spinning forever) is reached, never the result. -/
theorem c5_ttas_equals_lock (flag : Nat) (spur : List Bool) :
    Mutex.lock_ttas flag spur = Mutex.lock flag spur := by
  unfold Mutex.lock_ttas Mutex.lock Mutex.lockAux
  by_cases h : flag = MUTEX_LOCKED
  · subst h
    simp [lockLoop_locked_none]
  · simp [h]

/-- The busy-wait only ever exits at a read equal to the caller's ticket. -/
theorem spinWait_exit_eq (m : Nat) :
    ∀ (obs : List Nat) (t : Nat), spinWait m obs = some t → t = m := by
  intro obs
  induction obs with
  | nil => intro t h; simp [spinWait] at h
  | cons a rest ih =>
    intro t h
    by_cases ha : a = m
    · subst ha
      simp [spinWait] at h
      omega
    · simp only [spinWait, ne_eq, ha, not_false_iff, if_true] at h
      exact ih t h

/-- The busy-wait exits exactly when the ticket value appears among the reads. -/
theorem spinWait_isSome_iff (m : Nat) :
    ∀ obs : List Nat, (spinWait m obs).isSome = true ↔ m ∈ obs := by
  intro obs
  induction obs with
  | nil => simp [spinWait]
  | cons a rest ih =>
    by_cases ha : a = m
    · subst ha
      simp [spinWait]
    · simp only [spinWait, ne_eq, ha, not_false_iff, if_true, List.mem_cons]
      rw [ih]
      constructor
      · exact fun h => Or.inr h
      · rintro (h | h)
        · exact absurd h.symm ha
        · exact h

/-- C6: TicketLock acquire takes the pre-increment value of `next_ticket` as the
caller's ticket while incrementing `next_ticket` by one (wrapping only at the
`usize` boundary), then busy-waits re-reading `now_serving`; the wait returns only
at a read equal to the caller's ticket, and it returns at all exactly when such a
read occurs. -/
theorem c6_ticket_acquire (ticket : Nat) (obs : List Nat) :
    (ticket_lock_lock ticket obs).1 = (ticket + 1) % USIZE_MOD ∧
    (ticket + 1 < USIZE_MOD → (ticket_lock_lock ticket obs).1 = ticket + 1) ∧
    (ticket_lock_lock ticket obs).2.1 = ticket ∧
    (∀ t : Nat, (ticket_lock_lock ticket obs).2.2 = some t → t = ticket) ∧
    (((ticket_lock_lock ticket obs).2.2).isSome = true ↔ ticket ∈ obs) := by
  refine ⟨rfl, ?_, rfl, ?_, ?_⟩
  · intro h
    exact Nat.mod_eq_of_lt h
  · intro t h
    exact spinWait_exit_eq ticket obs t h
  · exact spinWait_isSome_iff ticket obs

/-- C6 witness: a concrete acquisition with ticket 2 and reads 1, 2. -/
theorem c6_ticket_acquire_witness :
    (2 + 1 < USIZE_MOD ∧ (ticket_lock_lock 2 [1, 2]).2.2 = some 2) ∧
    ((ticket_lock_lock 2 [1, 2]).1 = 2 + 1 ∧ (2 : Nat) = 2) := by
  refine ⟨⟨by norm_num [USIZE_MOD], rfl⟩, ?_, ?_⟩
  · exact (c6_ticket_acquire 2 [1, 2]).2.1 (by norm_num [USIZE_MOD])
  · exact (c6_ticket_acquire 2 [1, 2]).2.2.2.1 2 rfl

/-- Iterating `unlock` below the overflow boundary adds one per call. -/
theorem ticket_unlock_iterate :
    ∀ (k s : Nat), s + k < USIZE_MOD → ticket_unlock^[k] s = s + k := by
  intro k
  induction k with
  | zero => intro s h; simp
  | succ k ih =>
    intro s h
    rw [Function.iterate_succ_apply]
    have h1 : ticket_unlock s = s + 1 := Nat.mod_eq_of_lt (by omega)
    rw [h1, ih (s + 1) (by omega)]
    omega

/-- C7: each release increments `now_serving` by exactly one and touches nothing
else, so `k` releases from `now_serving = s` (below the `usize` overflow boundary,
which the design leaves out of scope) end at `s + k`, passing through every
intermediate value `s + i` in strictly increasing ticket order. -/
theorem c7_release_advances_by_one (s k : Nat) (h : s + k < USIZE_MOD) :
    ticket_unlock^[k] s = s + k ∧
    (∀ i : Nat, i ≤ k → ticket_unlock^[i] s = s + i) ∧
    ticket_unlock s = (s + 1) % USIZE_MOD := by
  refine ⟨ticket_unlock_iterate k s h, ?_, rfl⟩
  intro i hi
  exact ticket_unlock_iterate i s (by omega)

/-- C7 witness: three releases from `now_serving = 5` end at 8. -/
theorem c7_release_advances_by_one_witness :
    (5 + 3 < USIZE_MOD) ∧ ticket_unlock^[3] 5 = 5 + 3 := by
  refine ⟨by norm_num [USIZE_MOD], ?_⟩
  exact (c7_release_advances_by_one 5 3 (by norm_num [USIZE_MOD])).1

/-- C8: the claim that every acquisition path uses at least acquire ordering and
every release path at least release ordering fails on the code: `try_lock`'s
successful swap is `Relaxed`, and the ticket lock's spin read and release
increment are plain non-atomic accesses with no ordering at all; only the
`_lock` CAS success and the guard-drop store meet the contract. -/
theorem c8_ordering_contract_violated :
    atLeastAcquire try_lock_swap_ordering = false ∧
    atLeastAcquire ticket_spin_read_ordering = false ∧
    atLeastRelease ticket_unlock_write_ordering = false ∧
    atLeastAcquire lock_cas_success_ordering = true ∧
    atLeastRelease guard_drop_store_ordering = true ∧
    atLeastAcquire ticket_fetch_add_ordering = false := by
  decide

/-- C9: the `unreachable!()` arm of `_lock` is reachable: from `Available` (a flag
value inside the documented range), a spurious `compare_exchange_weak` failure —
which the source's own comment says is allowed — produces `Err(MUTEX_AVAILABLE)`,
which no listed arm matches, so the catch-all runs and the operation panics. -/
theorem c9_lock_unreachable_is_reachable :
    Mutex.lock MUTEX_AVAILABLE [true] = some (MUTEX_AVAILABLE, LockOutcome.panicked) ∧
    (Mutex.try_lock MUTEX_AVAILABLE).2 ≠ LockOutcome.panicked ∧
    (Mutex.try_lock MUTEX_LOCKED).2 ≠ LockOutcome.panicked ∧
    (Mutex.try_lock MUTEX_POISONED).2 ≠ LockOutcome.panicked := by
  decide

/-- C10: locking `Mutex::new(v)` yields a handle that dereferences to `v`; writing
`w` through the handle and dropping it normally, the next acquisition's handle
dereferences to `w`: the payload survives a release/acquire round trip unchanged. -/
theorem c10_payload_round_trip (T : Type) (v w : T) :
    MutexState.lockM (MutexState.new v) [false]
      = some ({ inner := v, flag := MUTEX_LOCKED }, LockOutcome.ok) ∧
    MutexGuard.deref ({ inner := v, flag := MUTEX_LOCKED } : MutexState T) = v ∧
    MutexState.lockM
        (MutexGuard.drop false
          (MutexGuard.write ({ inner := v, flag := MUTEX_LOCKED } : MutexState T) w))
        [false]
      = some ({ inner := w, flag := MUTEX_LOCKED }, LockOutcome.ok) ∧
    MutexGuard.deref ({ inner := w, flag := MUTEX_LOCKED } : MutexState T) = w := by
  refine ⟨rfl, rfl, rfl, rfl⟩
